import Mathlib

/-!
# JMBACKEND: the signup, login and read handlers of `app.js`

A shallow embedding of the Express handlers of `app.js` and of the Mongoose
schema of `src/models/task.js`.  Documents are JSON values, the document store
is a record of six collections, and every handler is a function from the
world before the request to a response and the world after it.  The world
carries the store and a log of the effects the handler performed, so that
statements such as "no token is signed" or "no store access runs" can be read
off the log.
-/

namespace JM

/-! ## JSON values and documents -/

/-- JavaScript values as far as the handlers build and inspect them. -/
inductive JVal where
  | undef : JVal
  | null : JVal
  | str (s : String) : JVal
  | num (n : Int) : JVal
  | bool (b : Bool) : JVal
  | arr (items : List JVal) : JVal
  | obj (fields : List (String × JVal)) : JVal

/-- An object literal or a stored document: its members in order. -/
abbrev Doc := List (String × JVal)

/-- Member access `d.k`; a missing member reads as `undefined`. -/
def getField (d : Doc) (k : String) : JVal :=
  match d.lookup k with
  | some v => v
  | none => JVal.undef

/-- Whether a value is `undefined` or `null`. -/
def JVal.isNullish : JVal → Bool
  | JVal.undef => true
  | JVal.null => true
  | _ => false

/-- Whether a value is the string `s`. -/
def JVal.isStr (s : String) : JVal → Bool
  | JVal.str t => t == s
  | _ => false

/-- The string a template literal `${v}` puts in place of `v`. -/
def JVal.toStr : JVal → String
  | JVal.undef => "undefined"
  | JVal.null => "null"
  | JVal.str s => s
  | JVal.num n => toString n
  | JVal.bool b => if b then "true" else "false"
  | JVal.arr _ => ""
  | JVal.obj _ => "[object Object]"

/-! ## Mongoose schemas (`new mongoose.Schema({...})`) -/

/-- The schema types the models of this repository use. -/
inductive SType where
  | string | number | boolean | object | array
  deriving DecidableEq, Repr

/-- One path of a schema: `name: { type, required }`. -/
structure SchemaPath where
  name : String
  type : SType
  required : Bool
  deriving DecidableEq, Repr

/-- A Mongoose schema: its paths in declaration order. -/
abbrev Schema := List SchemaPath

/-- The schema of `src/models/task.js`. -/
def taskSchema : Schema :=
  [ { name := "task_id", type := SType.string, required := true },
    { name := "title", type := SType.string, required := true },
    { name := "assigned_by", type := SType.object, required := true },
    { name := "assignees", type := SType.array, required := true },
    { name := "description", type := SType.string, required := true },
    { name := "client", type := SType.object, required := false },
    { name := "status", type := SType.object, required := true },
    { name := "escalation", type := SType.object, required := true },
    { name := "start_time", type := SType.string, required := true },
    { name := "duration", type := SType.number, required := true },
    { name := "hard_limit", type := SType.boolean, required := false },
    { name := "requires_authorization", type := SType.boolean, required := true },
    { name := "authorized_by", type := SType.boolean, required := false },
    { name := "completed_on", type := SType.string, required := false },
    { name := "sprint_id", type := SType.string, required := true } ]

/-- Mongoose casting of a defined value to a schema type; `none` is a
`CastError`.  `Object` is Mixed and takes any value, `Array` wraps a value that
is not an array. -/
def castValue : SType → JVal → Option JVal
  | _, JVal.undef => some JVal.undef
  | _, JVal.null => some JVal.null
  | SType.string, JVal.str s => some (JVal.str s)
  | SType.string, JVal.num n => some (JVal.str (toString n))
  | SType.string, JVal.bool b => some (JVal.str (if b then "true" else "false"))
  | SType.string, _ => none
  | SType.number, JVal.num n => some (JVal.num n)
  | SType.number, JVal.bool b => some (JVal.num (if b then 1 else 0))
  | SType.number, JVal.str s =>
      match s.toInt? with
      | some n => some (JVal.num n)
      | none => none
  | SType.number, _ => none
  | SType.boolean, JVal.bool b => some (JVal.bool b)
  | SType.boolean, JVal.str s =>
      if s = "true" ∨ s = "1" ∨ s = "yes" then some (JVal.bool true)
      else if s = "false" ∨ s = "0" ∨ s = "no" then some (JVal.bool false)
      else none
  | SType.boolean, JVal.num n =>
      if n = 1 then some (JVal.bool true)
      else if n = 0 then some (JVal.bool false)
      else none
  | SType.boolean, _ => none
  | SType.object, v => some v
  | SType.array, JVal.arr items => some (JVal.arr items)
  | SType.array, v => some (JVal.arr [v])

/-- The `required` validator of each schema type: a non-empty string, a
number, a boolean, any non-null Mixed value, an array. -/
def checkRequired : SType → JVal → Bool
  | SType.string, JVal.str s => s != ""
  | SType.number, JVal.num _ => true
  | SType.boolean, JVal.bool _ => true
  | SType.object, v => !v.isNullish
  | SType.array, JVal.arr _ => true
  | _, _ => false

/-- A Mongoose document: the schema of its model, the members the constructor
kept, and whether every given value could be cast. -/
structure Document where
  schema : Schema
  fields : Doc
  castOk : Bool

/-- The member a schema path gets from the constructor argument: the cast
value if one is given, `[]` for an array path without one, nothing
otherwise. -/
def constructPath (raw : Doc) (p : SchemaPath) : Option (String × JVal) :=
  match getField raw p.name with
  | JVal.undef => if p.type = SType.array then some (p.name, JVal.arr []) else none
  | v =>
      match castValue p.type v with
      | some c => some (p.name, c)
      | none => none

/-- Whether the value given for a schema path can be cast to its type. -/
def castablePath (raw : Doc) (p : SchemaPath) : Bool :=
  (castValue p.type (getField raw p.name)).isSome

/-- The document `new Model(raw)` of a model with schema `s` (strict mode):
members that are not paths of the schema are dropped, the others are cast.
The generated `_id` is left out. -/
def construct (s : Schema) (raw : Doc) : Document :=
  { schema := s
    fields := s.filterMap (constructPath raw)
    castOk := s.all (castablePath raw) }

/-- Whether a required path of the schema holds an acceptable value. -/
def requiredOk (fields : Doc) (p : SchemaPath) : Bool :=
  !p.required || checkRequired p.type (getField fields p.name)

/-- The validation that `doc.save()` runs first: no cast error and every
required path present. -/
def validate (d : Document) : Bool :=
  d.castOk && d.schema.all (requiredOk d.fields)

/-! ## The document store -/

/-- The six collections behind the models `User`, `Organization`, `Task`,
`Sprint`, `Project` and `Alert`. -/
inductive Coll where
  | users | organizations | tasks | sprints | projects | alerts
  deriving DecidableEq, Repr

/-- The contents of the store: the documents of each collection, oldest
first. -/
structure Store where
  users : List Doc
  organizations : List Doc
  tasks : List Doc
  sprints : List Doc
  projects : List Doc
  alerts : List Doc

/-- The documents of a collection. -/
def Store.get (s : Store) : Coll → List Doc
  | Coll.users => s.users
  | Coll.organizations => s.organizations
  | Coll.tasks => s.tasks
  | Coll.sprints => s.sprints
  | Coll.projects => s.projects
  | Coll.alerts => s.alerts

/-- Replace the documents of a collection. -/
def Store.set (s : Store) (c : Coll) (docs : List Doc) : Store :=
  match c with
  | Coll.users => { s with users := docs }
  | Coll.organizations => { s with organizations := docs }
  | Coll.tasks => { s with tasks := docs }
  | Coll.sprints => { s with sprints := docs }
  | Coll.projects => { s with projects := docs }
  | Coll.alerts => { s with alerts := docs }

/-- The store with no document. -/
def Store.empty : Store :=
  { users := [], organizations := [], tasks := [], sprints := [], projects := [], alerts := [] }

/-- The eight writes of the signup handler, named in the order the handler
issues them. -/
inductive Write where
  | saveUser | saveTask | saveOrg | saveProject | saveSprint
  | pushUserTask | saveAlert | pushOrgMembers
  deriving DecidableEq, Repr

/-- What a handler does besides computing its response. -/
inductive Effect where
  | dbConnect
  | find (c : Coll)
  | save (c : Coll) (persisted : Bool)
  | update (c : Coll) (applied : Bool)
  | hash
  | sign
  | sendMail (recipient : String)
  deriving DecidableEq, Repr

/-- The state a request runs in: the store and the effects so far, oldest
first. -/
structure World where
  store : Store
  log : List Effect

/-- Record an effect. -/
def World.emit (w : World) (e : Effect) : World :=
  { w with log := w.log ++ [e] }

/-- A MongoDB equality filter `{k: s}` (and `{k: {$in: [s]}}`, which selects
the same documents): the member is `s` or an array with the element `s`. -/
def matchesStr (k : String) (s : String) (d : Doc) : Bool :=
  match getField d k with
  | JVal.str t => t == s
  | JVal.arr items => items.any (JVal.isStr s)
  | _ => false

/-- The filter `{k: v}` for a value read from a document or a token; the
identifiers and emails of this application are strings. -/
def matchesVal (k : String) (v : JVal) (d : Doc) : Bool :=
  match v with
  | JVal.str s => matchesStr k s d
  | _ => false

/-- The query `Model.find({k: v})`. -/
def findAll (docs : List Doc) (k : String) (v : JVal) : List Doc :=
  docs.filter (matchesVal k v)

/-- The query `Model.findOne({k: v})`. -/
def findOne (docs : List Doc) (k : String) (v : JVal) : Option Doc :=
  docs.find? (matchesVal k v)

/-- Replace member `k` of a document, or add it. -/
def setField (d : Doc) (k : String) (v : JVal) : Doc :=
  if d.any (fun kv => kv.1 == k) then d.map (fun kv => if kv.1 == k then (k, v) else kv)
  else d ++ [(k, v)]

/-- The update operator `$push: {k: v}` on one document: appends to the array,
creates it when the member is missing, and is an error on anything else. -/
def pushField (d : Doc) (k : String) (v : JVal) : Option Doc :=
  match getField d k with
  | JVal.arr items => some (setField d k (JVal.arr (items ++ [v])))
  | JVal.undef => some (setField d k (JVal.arr [v]))
  | _ => none

/-- Apply `$push` of each listed member to one document. -/
def pushFields (d : Doc) : List (String × JVal) → Option Doc
  | [] => some d
  | (k, v) :: rest =>
      match pushField d k v with
      | some e => pushFields e rest
      | none => none

/-- Apply an update to the first document the filter selects; `none` is an
error of the update, an unmatched filter changes nothing. -/
def updateFirst (docs : List Doc) (k : String) (v : JVal) (pushes : List (String × JVal)) :
    Option (List Doc) :=
  match docs with
  | [] => some []
  | d :: rest =>
      if matchesVal k v d then
        match pushFields d pushes with
        | some e => some (e :: rest)
        | none => none
      else
        match updateFirst rest k v pushes with
        | some r => some (d :: r)
        | none => none

/-! ## Process environment -/

/-- What the process and the libraries supply to a request: the configured
secret, the clock, the identifiers `uuidv4()` returns in call order, bcrypt,
and whether the store carries out each write of the signup sequence. -/
structure Env where
  SECRET_JWT : String
  now : Nat
  uuidv4 : Nat → String
  bcryptHash : String → String
  bcryptCompare : String → String → Bool
  storeOk : Write → Bool

/-- The schemas of the six models the handlers use. -/
structure Models where
  user : Schema
  organization : Schema
  task : Schema
  sprint : Schema
  project : Schema
  alert : Schema

/-! ## Session tokens (`jsonwebtoken`) -/

/-- A value of the `Authorization` header: either a string that `jwt.sign`
did not produce, or a token signed over a payload with a key, carrying its
issue and expiry times in seconds. -/
inductive Token where
  | raw (s : String) : Token
  | signed (payload : Doc) (key : String) (iat : Nat) (exp : Nat) : Token

/-- Seconds in the `expiresIn: "7d"` of both `jwt.sign` calls. -/
def sevenDays : Nat := 7 * 24 * 60 * 60

/-- The call `jwt.sign(payload, secret, { expiresIn: "7d" })` at time `nowMs`. -/
def jwtSign (payload : Doc) (secret : String) (nowMs : Nat) : Token :=
  Token.signed payload secret (nowMs / 1000) (nowMs / 1000 + sevenDays)

/-- The call `jwt.verify(token, secret)` at time `nowMs`: the decoded payload
with its `iat` and `exp` claims, or `none` for the error the callback
receives (malformed token, wrong signature, expired). -/
def jwtVerify (t : Token) (secret : String) (nowMs : Nat) : Option Doc :=
  match t with
  | Token.raw _ => none
  | Token.signed payload key iat exp =>
      if key = secret ∧ nowMs / 1000 < exp then
        some (payload ++ [("iat", JVal.num iat), ("exp", JVal.num exp)])
      else none

/-- JavaScript falsiness of `req.header("Authorization")`: the header is
absent or the empty string. -/
def headerMissing : Option Token → Bool
  | none => true
  | some (Token.raw s) => s == ""
  | some (Token.signed _ _ _ _) => false

/-! ## Responses and `authenticateJWT` -/

/-- The response `res.status(status).json(body)`; `token` is the `token`
member of the body when the handler puts one there. -/
structure Res where
  status : Nat
  body : Doc
  token : Option Token

/-- The response of the middleware to a request without `Authorization` header. -/
def unauthorizedRes : Res :=
  { status := 401, body := [("message", JVal.str "Unauthorized")], token := none }

/-- The response of the middleware to a token that does not verify. -/
def forbiddenRes : Res :=
  { status := 403, body := [("message", JVal.str "Token is invalid")], token := none }

/-- What `authenticateJWT` does with a request: answer it, or set `req.user`
and call `next()`. -/
inductive AuthOutcome where
  | respond (r : Res) : AuthOutcome
  | next (user : Doc) : AuthOutcome

/-- The middleware `authenticateJWT(req, res, next)`. -/
def authenticateJWT (env : Env) (authorization : Option Token) : AuthOutcome :=
  if headerMissing authorization then AuthOutcome.respond unauthorizedRes
  else
    match authorization.bind (fun token => jwtVerify token env.SECRET_JWT env.now) with
    | none => AuthOutcome.respond forbiddenRes
    | some user => AuthOutcome.next user

/-- A route registered as `app.get(path, authenticateJWT, handler)`: the
handler runs only when the middleware calls `next()`. -/
def guarded (env : Env) (authorization : Option Token)
    (handler : Doc → World → Res × World) (w : World) : Res × World :=
  match authenticateJWT env authorization with
  | AuthOutcome.respond r => (r, w)
  | AuthOutcome.next user => handler user w

/-! ## Writes -/

/-- The world after a `save()` that persisted document `d` in collection `c`. -/
def World.saved (w : World) (c : Coll) (d : Document) : World :=
  { store := w.store.set c (w.store.get c ++ [d.fields])
    log := w.log ++ [Effect.save c true] }

/-- The world after a `save()` that threw: the store is as before. -/
def World.rejected (w : World) (c : Coll) : World :=
  w.emit (Effect.save c false)

/-- The world after an update that produced the documents `docs` of `c`. -/
def World.updated (w : World) (c : Coll) (docs : List Doc) : World :=
  { store := w.store.set c docs
    log := w.log ++ [Effect.update c true] }

/-- The world after an update that threw: the store is as before. -/
def World.updateFailed (w : World) (c : Coll) : World :=
  w.emit (Effect.update c false)

/-- Whether `d.save()` at a step of the signup sequence succeeds: the document
passes the validation of its schema and the store carries the write out. -/
def saveOk (env : Env) (step : Write) (d : Document) : Bool :=
  validate d && env.storeOk step

/-- The call `doc.save()` at a step of the signup sequence: on success the
document is appended to its collection and returned; otherwise the call throws
(`none`). -/
def save (env : Env) (step : Write) (c : Coll) (d : Document) (w : World) :
    Option Doc × World :=
  if saveOk env step d then (some d.fields, w.saved c d)
  else (none, w.rejected c)

/-- The documents of collection `c` after `$push` of `pushes` on the first
document that `{k: v}` selects, when the store carries the update out and the
update is not an error. -/
def pushResult (env : Env) (step : Write) (c : Coll) (k : String) (v : JVal)
    (pushes : List (String × JVal)) (w : World) : Option (List Doc) :=
  if env.storeOk step then updateFirst (w.store.get c) k v pushes else none

/-- The call `Model.findOneAndUpdate({k: v}, {$push: pushes})` at a step of
the signup sequence; `false` when it throws. -/
def findOneAndUpdate (env : Env) (step : Write) (c : Coll) (k : String) (v : JVal)
    (pushes : List (String × JVal)) (w : World) : Bool × World :=
  match pushResult env step c k v pushes w with
  | some docs => (true, w.updated c docs)
  | none => (false, w.updateFailed c)

/-! ## `POST /signup` -/

/-- The body of a signup request. -/
structure SignupBody where
  password : String
  email : String
  organization : String
  type : String
  first_name : String
  last_name : String

/-- The six documents the signup handler constructs before it saves any. -/
structure Provision where
  newUser : Document
  newOrg : Document
  firstTask : Document
  newSprint : Document
  newProject : Document
  newAlert : Document

/-- Milliseconds in the seven days added to the project start. -/
def sevenDaysMs : Nat := 7 * 24 * 60 * 60 * 1000

/-- The text of the welcome alert. -/
def welcomeText : String :=
  "Welcome to Kamari. We are so excited you trust us as a sprint management tool! Check out your first task to get oriented around the platform."

/-- The constructor calls of the signup handler (`new User`, `new Organization`,
`new Task`, `new Sprint`, `new Project`, `new Alert`), given the hashed password
and the six generated identifiers. -/
def buildDocs (m : Models) (env : Env) (body : SignupBody) (hashedPassword : String)
    (user_id org_id task_id alert_id sprint_id project_id : String) : Provision :=
  let newUser := construct m.user
    [ ("user_id", JVal.str user_id),
      ("email", JVal.str body.email),
      ("password", JVal.str hashedPassword),
      ("name", JVal.obj [("first", JVal.str body.first_name), ("last", JVal.str body.last_name)]),
      ("organization", JVal.obj []),
      ("kpi_data", JVal.obj []),
      ("tasks", JVal.arr []),
      ("type", JVal.str body.type),
      ("sprints", JVal.arr [JVal.str sprint_id]),
      ("marketable", JVal.bool true) ]
  let newOrg := construct m.organization
    [ ("org_id", JVal.str org_id),
      ("name", JVal.str body.organization),
      ("admins", JVal.arr []),
      ("members", JVal.arr []),
      ("seats", JVal.num 2),
      ("status", JVal.str "active"),
      ("billable_user", JVal.obj
        [ ("email", getField newUser.fields "email"),
          ("user_id", getField newUser.fields "user_id") ]),
      ("billing", JVal.obj []),
      ("sprints", JVal.arr [JVal.str sprint_id]) ]
  let firstTask := construct m.task
    [ ("task_id", JVal.str task_id),
      ("title", JVal.str "Getting Started"),
      ("assigned_by", JVal.obj [("email", JVal.str "danielfcarmichael@gmail.com")]),
      ("assignees", JVal.arr [getField newUser.fields "email"]),
      ("status", JVal.str "Not Started"),
      ("escalation", JVal.str "Low"),
      ("start_time", JVal.num env.now),
      ("duration", JVal.num 5),
      ("hard_limit", JVal.bool false),
      ("requires_authorization", JVal.bool false),
      ("sprint_id", JVal.str sprint_id),
      ("kanban", JVal.str "To Do") ]
  let newSprint := construct m.sprint
    [ ("sprint_id", JVal.str sprint_id),
      ("title", JVal.str (body.first_name ++ "\x27s First Sprint")),
      ("owner", JVal.obj newUser.fields),
      ("members", JVal.arr [JVal.obj newUser.fields]),
      ("viewers", JVal.arr []),
      ("status", JVal.obj
        [ ("time_allocated", JVal.num 0),
          ("time_over", JVal.num 0),
          ("active_status", JVal.str "Not Started") ]),
      ("start_date_time", JVal.num env.now),
      ("duration", JVal.str "1209600000"),
      ("kpi_data", JVal.obj []) ]
  let newProject := construct m.project
    [ ("project_id", JVal.str project_id),
      ("title", JVal.str ((getField newOrg.fields "name").toStr ++ "\x27s First Project")),
      ("tasks", JVal.arr [JVal.obj firstTask.fields]),
      ("owner", JVal.obj newUser.fields),
      ("owner_id", JVal.str user_id),
      ("members", JVal.arr []),
      ("viewers", JVal.arr []),
      ("status", JVal.obj
        [ ("task_percentage_complete", JVal.num 0),
          ("status", JVal.str "Active"),
          ("percentage_backlogged", JVal.num 0) ]),
      ("start_date_time", JVal.num env.now),
      ("end_date_time", JVal.num (env.now + sevenDaysMs)),
      ("kpi_data", JVal.obj []),
      ("cost", JVal.obj []) ]
  let newAlert := construct m.alert
    [ ("alert_id", JVal.str alert_id),
      ("to_user", JVal.obj newUser.fields),
      ("created_by", JVal.obj [("name", JVal.str "Kamari")]),
      ("text", JVal.str welcomeText),
      ("task", JVal.obj firstTask.fields),
      ("timestamp", JVal.num env.now),
      ("escalation", JVal.str "Low") ]
  { newUser := newUser, newOrg := newOrg, firstTask := firstTask,
    newSprint := newSprint, newProject := newProject, newAlert := newAlert }

/-- The response of the `catch` block of the signup handler. -/
def signupError : Res :=
  { status := 500
    body := [("message", JVal.str "Internal server error"), ("error", JVal.obj [])]
    token := none }

/-- The persistence sequence of the signup handler (from `newUser.save()` to
the response), in the order of the source: a call that throws ends the
sequence in the `catch` block, with the store as the earlier calls left it. -/
def persist (env : Env) (body : SignupBody) (p : Provision) (user_id org_id : String)
    (w : World) : Res × World :=
  match save env Write.saveUser Coll.users p.newUser w with
  | (none, w1) => (signupError, w1)
  | (some created_user, w1) =>
  match save env Write.saveTask Coll.tasks p.firstTask w1 with
  | (none, w2) => (signupError, w2)
  | (some created_task, w2) =>
  match save env Write.saveOrg Coll.organizations p.newOrg w2 with
  | (none, w3) => (signupError, w3)
  | (some created_org, w3) =>
  match save env Write.saveProject Coll.projects p.newProject w3 with
  | (none, w4) => (signupError, w4)
  | (some _, w4) =>
  match save env Write.saveSprint Coll.sprints p.newSprint w4 with
  | (none, w5) => (signupError, w5)
  | (some _, w5) =>
  match findOneAndUpdate env Write.pushUserTask Coll.users "user_id" (JVal.str user_id)
      [("tasks", JVal.obj created_task)] w5 with
  | (false, w6) => (signupError, w6)
  | (true, w6) =>
  match save env Write.saveAlert Coll.alerts p.newAlert w6 with
  | (none, w7) => (signupError, w7)
  | (some _, w7) =>
  match findOneAndUpdate env Write.pushOrgMembers Coll.organizations "org_id" (JVal.str org_id)
      [("members", JVal.obj created_user), ("admins", JVal.obj created_user)] w7 with
  | (false, w8) => (signupError, w8)
  | (true, w8) =>
      let w9 := w8.emit (Effect.sendMail body.email)
      let token := jwtSign [("user", JVal.obj created_user), ("userId", JVal.str user_id)]
        env.SECRET_JWT env.now
      ({ status := 200
         body :=
          [ ("message", JVal.str "User Registered"),
            ("user", JVal.obj created_user),
            ("organization", JVal.obj created_org) ]
         token := some token },
        w9.emit Effect.sign)

/-- The response to a signup whose email is taken. -/
def conflictRes : Res :=
  { status := 409
    body :=
      [ ("message", JVal.str "Username already exists"),
        ("redirect", JVal.obj [("url", JVal.str "google.com")]) ]
    token := none }

/-- The documents of a signup: the password hashed and the identifiers taken
from `uuidv4()` in the order `user_id`, `org_id`, `task_id`, `alert_id`,
`sprint_id`, `project_id`. -/
def signupDocs (m : Models) (env : Env) (body : SignupBody) : Provision :=
  buildDocs m env body (env.bcryptHash body.password) (env.uuidv4 0) (env.uuidv4 1)
    (env.uuidv4 2) (env.uuidv4 3) (env.uuidv4 4) (env.uuidv4 5)

/-- The handler of `POST /signup`. -/
def signup (m : Models) (env : Env) (body : SignupBody) (w : World) : Res × World :=
  let w1 := (w.emit Effect.dbConnect).emit (Effect.find Coll.users)
  match findOne w1.store.users "email" (JVal.str body.email) with
  | some _ => (conflictRes, w1)
  | none =>
      let w2 := w1.emit Effect.hash
      persist env body (signupDocs m env body) (env.uuidv4 0) (env.uuidv4 1) w2

/-! ## `POST /login` -/

/-- The body of a login request. -/
structure LoginBody where
  email : String
  password : String

/-- The value of `Object.keys(doc)` for a document a query returned: the own
properties of the Mongoose wrapper, whatever the document holds. -/
def documentKeys (_ : Doc) : List String := ["$__", "$isNew", "_doc"]

/-- The function `comparePassword(plaintextPassword, hashedPassword)`:
`bcrypt.compare` rejects (`none`) when the stored hash is not a string. -/
def comparePassword (env : Env) (plaintextPassword : String) (hashedPassword : JVal) :
    Option Bool :=
  match hashedPassword with
  | JVal.str h => some (env.bcryptCompare plaintextPassword h)
  | _ => none

/-- The response of the `catch` block of the login handler. -/
def loginError : Res :=
  { status := 500, body := [("message", JVal.obj [])], token := none }

/-- The handler of `POST /login`. -/
def login (env : Env) (body : LoginBody) (w : World) : Res × World :=
  let w1 := (w.emit Effect.dbConnect).emit (Effect.find Coll.users)
  match findAll w1.store.users "email" (JVal.str body.email) with
  | [] => (loginError, w1)
  | existing_user :: _ =>
      if (documentKeys existing_user).length = 0 then
        ({ status := 500, body := [("message", JVal.str "User not found")], token := none }, w1)
      else
        match comparePassword env body.password (getField existing_user "password") with
        | none => (loginError, w1)
        | some true =>
            let signed_user :=
              jwtSign
                [ ("user", JVal.obj existing_user),
                  ("userId", getField existing_user "user_id") ]
                env.SECRET_JWT env.now
            ({ status := 200, body := [("user", JVal.obj existing_user)], token := some signed_user },
              w1.emit Effect.sign)
        | some false =>
            ({ status := 400
               body := [("message", JVal.str "User not authorized. Incorrect password")]
               token := none },
              w1)

/-! ## Read handlers behind `authenticateJWT` -/

/-- The filter `{"k1.k2": v}` on an embedded document. -/
def matchesNested (k1 k2 : String) (v : JVal) (d : Doc) : Bool :=
  match getField d k1 with
  | JVal.obj inner => matchesVal k2 v inner
  | _ => false

/-- A list of documents as a JSON array. -/
def docsJson (docs : List Doc) : JVal :=
  JVal.arr (docs.map JVal.obj)

/-- The handler of `GET /alerts`, after the middleware has set `req.user`. -/
def getAlerts (user : Doc) (w : World) : Res × World :=
  let w1 := (w.emit Effect.dbConnect).emit (Effect.find Coll.alerts)
  let user_id := getField user "userId"
  let user_alerts := w1.store.alerts.filter (matchesNested "to_user" "user_id" user_id)
  ({ status := 200, body := [("alerts", docsJson user_alerts)], token := none }, w1)

/-- The response of the `catch` block of `GET /tasks` and `GET /projects`. -/
def readError : Res :=
  { status := 500, body := [("status", JVal.num 500), ("message", JVal.obj [])], token := none }

/-- The handler of `GET /tasks`, after the middleware has set `req.user`. -/
def getTasks (user : Doc) (w : World) : Res × World :=
  let w1 := (w.emit Effect.dbConnect).emit (Effect.find Coll.users)
  let user_id := getField user "userId"
  match findAll w1.store.users "user_id" user_id with
  | [] => (readError, w1)
  | u :: _ =>
      let w2 := w1.emit (Effect.find Coll.tasks)
      let tasks := findAll w2.store.tasks "assignees" (getField u "email")
      ({ status := 200, body := [("status", JVal.num 200), ("tasks", docsJson tasks)], token := none },
        w2)

/-- The routes `GET /alerts`, `GET /tasks` and `GET /projects` as registered:
each handler behind `authenticateJWT`. -/
def alertsRoute (env : Env) (authorization : Option Token) (w : World) : Res × World :=
  guarded env authorization getAlerts w

/-- The route `GET /tasks` as registered. -/
def tasksRoute (env : Env) (authorization : Option Token) (w : World) : Res × World :=
  guarded env authorization getTasks w

/-- Modelled from the spec: the User schema (`src/models/user.js` is missing);
the attributes are those the spec's data model and the signup handler give a
user, none of them required. -/
def userSchema : Schema :=
  [ { name := "user_id", type := SType.string, required := false },
    { name := "email", type := SType.string, required := false },
    { name := "password", type := SType.string, required := false },
    { name := "name", type := SType.object, required := false },
    { name := "organization", type := SType.object, required := false },
    { name := "kpi_data", type := SType.object, required := false },
    { name := "tasks", type := SType.array, required := false },
    { name := "type", type := SType.string, required := false },
    { name := "sprints", type := SType.array, required := false },
    { name := "marketable", type := SType.boolean, required := false } ]

/-- Modelled from the spec: the Organization schema
(`src/models/organization.js` is missing). -/
def organizationSchema : Schema :=
  [ { name := "org_id", type := SType.string, required := false },
    { name := "name", type := SType.string, required := false },
    { name := "admins", type := SType.array, required := false },
    { name := "members", type := SType.array, required := false },
    { name := "seats", type := SType.number, required := false },
    { name := "status", type := SType.string, required := false },
    { name := "billable_user", type := SType.object, required := false },
    { name := "billing", type := SType.object, required := false },
    { name := "sprints", type := SType.array, required := false } ]

/-- Modelled from the spec: the Sprint schema (`src/models/sprint.js` is
missing). -/
def sprintSchema : Schema :=
  [ { name := "sprint_id", type := SType.string, required := false },
    { name := "title", type := SType.string, required := false },
    { name := "owner", type := SType.object, required := false },
    { name := "members", type := SType.array, required := false },
    { name := "viewers", type := SType.array, required := false },
    { name := "status", type := SType.object, required := false },
    { name := "start_date_time", type := SType.string, required := false },
    { name := "duration", type := SType.string, required := false },
    { name := "kpi_data", type := SType.object, required := false } ]

/-- Modelled from the spec: the Project schema (`src/models/project.js` is
missing). -/
def projectSchema : Schema :=
  [ { name := "project_id", type := SType.string, required := false },
    { name := "title", type := SType.string, required := false },
    { name := "tasks", type := SType.array, required := false },
    { name := "owner", type := SType.object, required := false },
    { name := "owner_id", type := SType.string, required := false },
    { name := "members", type := SType.array, required := false },
    { name := "viewers", type := SType.array, required := false },
    { name := "status", type := SType.object, required := false },
    { name := "start_date_time", type := SType.string, required := false },
    { name := "end_date_time", type := SType.string, required := false },
    { name := "kpi_data", type := SType.object, required := false },
    { name := "cost", type := SType.object, required := false } ]

/-- Modelled from the spec: the Alert schema (`src/models/alerts.js` is
missing). -/
def alertSchema : Schema :=
  [ { name := "alert_id", type := SType.string, required := false },
    { name := "to_user", type := SType.object, required := false },
    { name := "created_by", type := SType.object, required := false },
    { name := "text", type := SType.string, required := false },
    { name := "task", type := SType.object, required := false },
    { name := "timestamp", type := SType.string, required := false },
    { name := "escalation", type := SType.string, required := false } ]

/-- The models of the application: the Task schema of the repository with
the five that are missing. -/
def appModels : Models :=
  { user := userSchema
    organization := organizationSchema
    task := taskSchema
    sprint := sprintSchema
    project := projectSchema
    alert := alertSchema }

/-- The models of the application for any choice of the five missing
schemas. -/
def Models.withTaskSchema (m : Models) : Models :=
  { m with task := taskSchema }

/-! ## Concrete inputs -/

/-- An environment in which every write is carried out. -/
def demoEnv : Env :=
  { SECRET_JWT := "s3cret"
    now := 1700000000000
    uuidv4 := fun k => "id-" ++ toString k
    bcryptHash := fun p => "hash:" ++ p
    bcryptCompare := fun p h => h == "hash:" ++ p
    storeOk := fun _ => true }

/-- The signup request of the spec's example. -/
def demoSignup : SignupBody :=
  { password := "p", email := "a@x.com", organization := "Acme", type := "client",
    first_name := "A", last_name := "B" }

/-- The world before any request. -/
def World.initial : World :=
  { store := Store.empty, log := [] }

/-- The effects a request added to the log. -/
def newEffects (before after : World) : List Effect :=
  after.log.drop before.log.length

/-- Whether a log holds a store access of any kind. -/
def hasStoreAccess : List Effect → Bool
  | [] => false
  | Effect.dbConnect :: _ => true
  | Effect.find _ :: _ => true
  | Effect.save _ _ :: _ => true
  | Effect.update _ _ :: _ => true
  | _ :: rest => hasStoreAccess rest

/-- The world after the User save. -/
def savedUser (p : Provision) (w : World) : World :=
  w.saved Coll.users p.newUser

/-- The world after the User and Task saves. -/
def savedTask (p : Provision) (w : World) : World :=
  (savedUser p w).saved Coll.tasks p.firstTask

/-- The world after the User, Task and Organization saves. -/
def savedOrg (p : Provision) (w : World) : World :=
  (savedTask p w).saved Coll.organizations p.newOrg

/-- The world after the User, Task, Organization and Project saves. -/
def savedProject (p : Provision) (w : World) : World :=
  (savedOrg p w).saved Coll.projects p.newProject

/-- The world after the first five saves. -/
def savedSprint (p : Provision) (w : World) : World :=
  (savedProject p w).saved Coll.sprints p.newSprint

/-- The outcome of the `$push` of the task onto the user. -/
def userPush (env : Env) (p : Provision) (user_id : String) (w : World) : Option (List Doc) :=
  pushResult env Write.pushUserTask Coll.users "user_id" (JVal.str user_id)
    [("tasks", JVal.obj p.firstTask.fields)] (savedSprint p w)

/-- The world after the five saves and the user update that left `users`. -/
def pushedTask (p : Provision) (w : World) (users : List Doc) : World :=
  (savedSprint p w).updated Coll.users users

/-- The world after the Alert save. -/
def savedAlert (p : Provision) (w : World) (users : List Doc) : World :=
  (pushedTask p w users).saved Coll.alerts p.newAlert

/-- The outcome of the `$push` of the user onto the organization. -/
def orgPush (env : Env) (p : Provision) (org_id : String) (w : World) (users : List Doc) :
    Option (List Doc) :=
  pushResult env Write.pushOrgMembers Coll.organizations "org_id" (JVal.str org_id)
    [("members", JVal.obj p.newUser.fields), ("admins", JVal.obj p.newUser.fields)]
    (savedAlert p w users)

/-- The world after all eight writes, the welcome mail and the token. -/
def provisioned (body : SignupBody) (p : Provision) (w : World) (users orgs : List Doc) : World :=
  ((((savedAlert p w users).updated Coll.organizations orgs).emit
    (Effect.sendMail body.email)).emit Effect.sign)

/-- The response of a signup whose eight writes succeeded. -/
def registeredRes (env : Env) (p : Provision) (user_id : String) : Res :=
  { status := 200
    body :=
      [ ("message", JVal.str "User Registered"),
        ("user", JVal.obj p.newUser.fields),
        ("organization", JVal.obj p.newOrg.fields) ]
    token := some (jwtSign [("user", JVal.obj p.newUser.fields), ("userId", JVal.str user_id)]
      env.SECRET_JWT env.now) }

/-- The nine ways the persistence sequence can end: at the first write that
fails, with the `catch` response and the store as the earlier writes left it,
or after the last write, with the success response. -/
inductive PersistRun (env : Env) (body : SignupBody) (p : Provision) (user_id org_id : String)
    (w : World) : Res × World → Prop where
  | userFails :
      saveOk env Write.saveUser p.newUser = false →
      PersistRun env body p user_id org_id w (signupError, w.rejected Coll.users)
  | taskFails :
      saveOk env Write.saveUser p.newUser = true →
      saveOk env Write.saveTask p.firstTask = false →
      PersistRun env body p user_id org_id w (signupError, (savedUser p w).rejected Coll.tasks)
  | orgFails :
      saveOk env Write.saveUser p.newUser = true →
      saveOk env Write.saveTask p.firstTask = true →
      saveOk env Write.saveOrg p.newOrg = false →
      PersistRun env body p user_id org_id w
        (signupError, (savedTask p w).rejected Coll.organizations)
  | projectFails :
      saveOk env Write.saveUser p.newUser = true →
      saveOk env Write.saveTask p.firstTask = true →
      saveOk env Write.saveOrg p.newOrg = true →
      saveOk env Write.saveProject p.newProject = false →
      PersistRun env body p user_id org_id w (signupError, (savedOrg p w).rejected Coll.projects)
  | sprintFails :
      saveOk env Write.saveUser p.newUser = true →
      saveOk env Write.saveTask p.firstTask = true →
      saveOk env Write.saveOrg p.newOrg = true →
      saveOk env Write.saveProject p.newProject = true →
      saveOk env Write.saveSprint p.newSprint = false →
      PersistRun env body p user_id org_id w
        (signupError, (savedProject p w).rejected Coll.sprints)
  | userPushFails :
      saveOk env Write.saveUser p.newUser = true →
      saveOk env Write.saveTask p.firstTask = true →
      saveOk env Write.saveOrg p.newOrg = true →
      saveOk env Write.saveProject p.newProject = true →
      saveOk env Write.saveSprint p.newSprint = true →
      userPush env p user_id w = none →
      PersistRun env body p user_id org_id w
        (signupError, (savedSprint p w).updateFailed Coll.users)
  | alertFails (users : List Doc) :
      saveOk env Write.saveUser p.newUser = true →
      saveOk env Write.saveTask p.firstTask = true →
      saveOk env Write.saveOrg p.newOrg = true →
      saveOk env Write.saveProject p.newProject = true →
      saveOk env Write.saveSprint p.newSprint = true →
      userPush env p user_id w = some users →
      saveOk env Write.saveAlert p.newAlert = false →
      PersistRun env body p user_id org_id w
        (signupError, (pushedTask p w users).rejected Coll.alerts)
  | orgPushFails (users : List Doc) :
      saveOk env Write.saveUser p.newUser = true →
      saveOk env Write.saveTask p.firstTask = true →
      saveOk env Write.saveOrg p.newOrg = true →
      saveOk env Write.saveProject p.newProject = true →
      saveOk env Write.saveSprint p.newSprint = true →
      userPush env p user_id w = some users →
      saveOk env Write.saveAlert p.newAlert = true →
      orgPush env p org_id w users = none →
      PersistRun env body p user_id org_id w
        (signupError, (savedAlert p w users).updateFailed Coll.organizations)
  | registered (users orgs : List Doc) :
      saveOk env Write.saveUser p.newUser = true →
      saveOk env Write.saveTask p.firstTask = true →
      saveOk env Write.saveOrg p.newOrg = true →
      saveOk env Write.saveProject p.newProject = true →
      saveOk env Write.saveSprint p.newSprint = true →
      userPush env p user_id w = some users →
      saveOk env Write.saveAlert p.newAlert = true →
      orgPush env p org_id w users = some orgs →
      PersistRun env body p user_id org_id w
        (registeredRes env p user_id, provisioned body p w users orgs)

/-- A stored user whose password hash `demoEnv` matches with `"p"`. -/
def demoUser : Doc :=
  [ ("user_id", JVal.str "u1"),
    ("email", JVal.str "a@x.com"),
    ("password", JVal.str "hash:p"),
    ("tasks", JVal.arr []),
    ("sprints", JVal.arr [JVal.str "s1"]) ]

/-- A project that `demoUser` owns and also views. -/
def ownedAndViewed : Doc :=
  [ ("project_id", JVal.str "p1"),
    ("owner_id", JVal.str "u1"),
    ("members", JVal.arr []),
    ("viewers", JVal.arr [JVal.str "a@x.com"]) ]

/-- A project of another user with `demoUser` among its members. -/
def memberOnly : Doc :=
  [ ("project_id", JVal.str "p2"),
    ("owner_id", JVal.str "u2"),
    ("members", JVal.arr [JVal.str "b@x.com", JVal.str "a@x.com"]),
    ("viewers", JVal.arr []) ]

/-- A project that has nothing to do with `demoUser`. -/
def unrelated : Doc :=
  [ ("project_id", JVal.str "p3"),
    ("owner_id", JVal.str "u2"),
    ("members", JVal.arr [JVal.str "b@x.com"]),
    ("viewers", JVal.arr []) ]

/-- A world with one user and three projects. -/
def demoWorld : World :=
  { store :=
      { users := [demoUser], organizations := [], tasks := [], sprints := []
        projects := [ownedAndViewed, memberOnly, unrelated], alerts := [] }
    log := [] }

/-- The login request of `demoUser` with a wrong password. -/
def wrongLogin : LoginBody :=
  { email := "a@x.com", password := "q" }

/-- A login request for an email that no stored user has. -/
def unknownLogin : LoginBody :=
  { email := "nobody@x.com", password := "p" }

/-- The environment `demoEnv` some time later. -/
def laterEnv (ms : Nat) : Env :=
  { demoEnv with now := demoEnv.now + ms }

/-- The status of the response the middleware gives, if it answers itself. -/
def AuthOutcome.status : AuthOutcome → Option Nat
  | AuthOutcome.respond r => some r.status
  | AuthOutcome.next _ => none

/-- The world a login leaves when it signs no token: the store untouched, the
log longer by the connection and the lookup. -/
def World.lookedUp (w : World) : World :=
  (w.emit Effect.dbConnect).emit (Effect.find Coll.users)

/-! # Theorems -/

/-! ## Lemmas: the write primitives -/

theorem save_of_ok {env : Env} {step : Write} {d : Document} (c : Coll) (w : World)
    (h : saveOk env step d = true) : save env step c d w = (some d.fields, w.saved c d) := by
  simp [save, h]

theorem save_of_not_ok {env : Env} {step : Write} {d : Document} (c : Coll) (w : World)
    (h : saveOk env step d = false) : save env step c d w = (none, w.rejected c) := by
  simp [save, h]

theorem findOneAndUpdate_of_some {env : Env} {step : Write} {c : Coll} {k : String} {v : JVal}
    {pushes : List (String × JVal)} {w : World} {docs : List Doc}
    (h : pushResult env step c k v pushes w = some docs) :
    findOneAndUpdate env step c k v pushes w = (true, w.updated c docs) := by
  simp [findOneAndUpdate, h]

theorem findOneAndUpdate_of_none {env : Env} {step : Write} {c : Coll} {k : String} {v : JVal}
    {pushes : List (String × JVal)} {w : World}
    (h : pushResult env step c k v pushes w = none) :
    findOneAndUpdate env step c k v pushes w = (false, w.updateFailed c) := by
  simp [findOneAndUpdate, h]

/-- Every run of the persistence sequence is one of the nine of `PersistRun`. -/
theorem persist_run (env : Env) (body : SignupBody) (p : Provision) (user_id org_id : String)
    (w : World) : PersistRun env body p user_id org_id w (persist env body p user_id org_id w) := by
  unfold persist
  cases h1 : saveOk env Write.saveUser p.newUser with
  | false => rw [save_of_not_ok _ _ h1]; exact PersistRun.userFails h1
  | true =>
  rw [save_of_ok _ _ h1]; dsimp only
  cases h2 : saveOk env Write.saveTask p.firstTask with
  | false => rw [save_of_not_ok _ _ h2]; exact PersistRun.taskFails h1 h2
  | true =>
  rw [save_of_ok _ _ h2]; dsimp only
  cases h3 : saveOk env Write.saveOrg p.newOrg with
  | false => rw [save_of_not_ok _ _ h3]; exact PersistRun.orgFails h1 h2 h3
  | true =>
  rw [save_of_ok _ _ h3]; dsimp only
  cases h4 : saveOk env Write.saveProject p.newProject with
  | false => rw [save_of_not_ok _ _ h4]; exact PersistRun.projectFails h1 h2 h3 h4
  | true =>
  rw [save_of_ok _ _ h4]; dsimp only
  cases h5 : saveOk env Write.saveSprint p.newSprint with
  | false => rw [save_of_not_ok _ _ h5]; exact PersistRun.sprintFails h1 h2 h3 h4 h5
  | true =>
  rw [save_of_ok _ _ h5]; dsimp only
  cases h6 : userPush env p user_id w with
  | none =>
      rw [findOneAndUpdate_of_none (by exact h6)]
      exact PersistRun.userPushFails h1 h2 h3 h4 h5 h6
  | some users =>
  rw [findOneAndUpdate_of_some (by exact h6)]; dsimp only
  cases h7 : saveOk env Write.saveAlert p.newAlert with
  | false => rw [save_of_not_ok _ _ h7]; exact PersistRun.alertFails users h1 h2 h3 h4 h5 h6 h7
  | true =>
  rw [save_of_ok _ _ h7]; dsimp only
  cases h8 : orgPush env p org_id w users with
  | none =>
      rw [findOneAndUpdate_of_none (by exact h8)]
      exact PersistRun.orgPushFails users h1 h2 h3 h4 h5 h6 h7 h8
  | some orgs =>
  rw [findOneAndUpdate_of_some (by exact h8)]
  exact PersistRun.registered users orgs h1 h2 h3 h4 h5 h6 h7 h8

/-! ## Lemmas: updates keep the number of documents -/

/-- A run whose Task fails validation ends at the User save or at the Task
save. -/
theorem PersistRun.of_task_invalid {env : Env} {body : SignupBody} {p : Provision}
    {u o : String} {w : World} {r : Res × World} (h : PersistRun env body p u o w r)
    (ht : validate p.firstTask = false) :
    r = (signupError, w.rejected Coll.users) ∨
      (saveOk env Write.saveUser p.newUser = true ∧
        r = (signupError, (savedUser p w).rejected Coll.tasks)) := by
  have ht2 : saveOk env Write.saveTask p.firstTask = false := by simp [saveOk, ht]
  cases h <;> simp_all

theorem signup_of_existing (m : Models) (env : Env) (body : SignupBody) (w : World) (v : Doc)
    (h : findOne w.store.users "email" (JVal.str body.email) = some v) :
    signup m env body w =
      (conflictRes, { store := w.store, log := w.log ++ [Effect.dbConnect, Effect.find Coll.users] }) := by
  simp [signup, World.emit, h]

theorem signup_of_fresh (m : Models) (env : Env) (body : SignupBody) (w : World)
    (h : findOne w.store.users "email" (JVal.str body.email) = none) :
    signup m env body w =
      persist env body (signupDocs m env body) (env.uuidv4 0) (env.uuidv4 1)
        { store := w.store
          log := w.log ++ [Effect.dbConnect, Effect.find Coll.users, Effect.hash] } := by
  simp [signup, World.emit, h]

/-! ## Lemmas: queries and validation -/

theorem matchesVal_of_field {k e : String} {d : Doc} (h : getField d k = JVal.str e) :
    matchesVal k (JVal.str e) d = true := by
  simp [matchesVal, matchesStr, h]

theorem findOne_of_member {docs : List Doc} {k e : String} {u : Doc} (hu : u ∈ docs)
    (h : getField u k = JVal.str e) : ∃ v, findOne docs k (JVal.str e) = some v := by
  have hs : (findOne docs k (JVal.str e)).isSome = true := by
    unfold findOne
    rw [List.find?_isSome]
    exact ⟨u, hu, matchesVal_of_field h⟩
  exact Option.isSome_iff_exists.mp hs

/-- A document with a required path that holds no acceptable value fails
validation. -/
theorem validate_eq_false_of_required {d : Document} (p : SchemaPath) (hp : p ∈ d.schema)
    (h : requiredOk d.fields p = false) : validate d = false := by
  unfold validate
  rw [Bool.and_eq_false_iff]
  right
  rw [List.all_eq_false]
  exact ⟨p, hp, by simp [h]⟩

/-- The task the signup handler constructs has no `description`, which the
Task schema requires: it fails validation whatever the request and the other
schemas are. -/
theorem firstTask_invalid (m : Models) (env : Env) (body : SignupBody) :
    validate (signupDocs m.withTaskSchema env body).firstTask = false := by
  apply validate_eq_false_of_required
    { name := "description", type := SType.string, required := true }
  · show _ ∈ taskSchema
    decide
  · rfl

/-- C1 (the code departs from the claim): a signup with a fresh email is never
answered 200.  The task the handler constructs lacks the `description` that
the Task schema of `src/models/task.js` requires, so `firstTask.save()` throws
and the handler answers 500 without a token; no task, organization, sprint,
project or alert is stored. -/
theorem C1_signup_fresh_email_answers_500 (m : Models) (env : Env) (body : SignupBody)
    (w : World) (hfresh : findOne w.store.users "email" (JVal.str body.email) = none) :
    (signup m.withTaskSchema env body w).1.status = 500 ∧
    (signup m.withTaskSchema env body w).1.token = none ∧
    (signup m.withTaskSchema env body w).2.store.tasks = w.store.tasks ∧
    (signup m.withTaskSchema env body w).2.store.organizations = w.store.organizations ∧
    (signup m.withTaskSchema env body w).2.store.sprints = w.store.sprints ∧
    (signup m.withTaskSchema env body w).2.store.projects = w.store.projects ∧
    (signup m.withTaskSchema env body w).2.store.alerts = w.store.alerts := by
  rw [signup_of_fresh _ env body w hfresh]
  rcases (persist_run env body (signupDocs m.withTaskSchema env body) (env.uuidv4 0)
    (env.uuidv4 1) _).of_task_invalid (firstTask_invalid m env body) with h | ⟨_, h⟩
  · rw [h]
    exact ⟨rfl, rfl, rfl, rfl, rfl, rfl, rfl⟩
  · rw [h]
    exact ⟨rfl, rfl, rfl, rfl, rfl, rfl, rfl⟩

/-- C1 at the request of the spec's example on an empty store: the answer is
500 and the store is left with the new user alone. -/
theorem C1_signup_example_witness :
    findOne World.initial.store.users "email" (JVal.str demoSignup.email) = none ∧
    ((signup appModels.withTaskSchema demoEnv demoSignup World.initial).1.status = 500 ∧
      (signup appModels.withTaskSchema demoEnv demoSignup World.initial).1.token = none ∧
      (signup appModels.withTaskSchema demoEnv demoSignup World.initial).2.store.tasks =
        World.initial.store.tasks ∧
      (signup appModels.withTaskSchema demoEnv demoSignup World.initial).2.store.organizations =
        World.initial.store.organizations ∧
      (signup appModels.withTaskSchema demoEnv demoSignup World.initial).2.store.sprints =
        World.initial.store.sprints ∧
      (signup appModels.withTaskSchema demoEnv demoSignup World.initial).2.store.projects =
        World.initial.store.projects ∧
      (signup appModels.withTaskSchema demoEnv demoSignup World.initial).2.store.alerts =
        World.initial.store.alerts) ∧
    (signup appModels.withTaskSchema demoEnv demoSignup World.initial).2.store.users.length = 1 ∧
    newEffects World.initial (signup appModels.withTaskSchema demoEnv demoSignup World.initial).2 =
      [Effect.dbConnect, Effect.find Coll.users, Effect.hash, Effect.save Coll.users true,
        Effect.save Coll.tasks false] :=
  ⟨rfl, C1_signup_fresh_email_answers_500 appModels demoEnv demoSignup World.initial rfl,
    by decide, by decide⟩

/-! ## C2 -/

/-- C3: a signup whose email is the email of a stored user is answered 409;
the store after the call is the store before it, the response carries no
token, and the handler does nothing but connect and look the user up (no
save, no update, no token signature, no mail). -/
theorem C3_signup_existing_email_conflict (m : Models) (env : Env) (body : SignupBody)
    (w : World) (h : ∃ u ∈ w.store.users, getField u "email" = JVal.str body.email) :
    (signup m env body w).1.status = 409 ∧
    (signup m env body w).2.store = w.store ∧
    (signup m env body w).1.token = none ∧
    newEffects w (signup m env body w).2 = [Effect.dbConnect, Effect.find Coll.users] := by
  obtain ⟨u, hu, he⟩ := h
  obtain ⟨v, hv⟩ := findOne_of_member hu he
  rw [signup_of_existing m env body w v hv]
  refine ⟨rfl, rfl, rfl, ?_⟩
  simp [newEffects]

/-- C3 at two signups with the same email: the first, on an empty store,
leaves its user in the store; the second is answered 409 and changes
nothing. -/
theorem C3_second_signup_witness :
    (∃ u ∈ (signup appModels demoEnv demoSignup World.initial).2.store.users,
      getField u "email" = JVal.str demoSignup.email) ∧
    (signup appModels demoEnv demoSignup
      (signup appModels demoEnv demoSignup World.initial).2).1.status = 409 ∧
    (signup appModels demoEnv demoSignup
      (signup appModels demoEnv demoSignup World.initial).2).2.store =
      (signup appModels demoEnv demoSignup World.initial).2.store ∧
    (signup appModels demoEnv demoSignup
      (signup appModels demoEnv demoSignup World.initial).2).1.token = none ∧
    newEffects (signup appModels demoEnv demoSignup World.initial).2
      (signup appModels demoEnv demoSignup
        (signup appModels demoEnv demoSignup World.initial).2).2 =
      [Effect.dbConnect, Effect.find Coll.users] :=
  have h : ∃ u ∈ (signup appModels demoEnv demoSignup World.initial).2.store.users,
      getField u "email" = JVal.str demoSignup.email :=
    ⟨(signupDocs appModels demoEnv demoSignup).newUser.fields, List.Mem.head _, rfl⟩
  ⟨h, C3_signup_existing_email_conflict appModels demoEnv demoSignup
    (signup appModels demoEnv demoSignup World.initial).2 h⟩

/-! ## Lemmas: `authenticateJWT` -/

theorem authenticateJWT_of_missing (env : Env) (authorization : Option Token)
    (h : headerMissing authorization = true) :
    authenticateJWT env authorization = AuthOutcome.respond unauthorizedRes := by
  simp [authenticateJWT, h]

theorem authenticateJWT_of_present (env : Env) (token : Token)
    (h : headerMissing (some token) = false) :
    authenticateJWT env (some token) =
      match jwtVerify token env.SECRET_JWT env.now with
      | none => AuthOutcome.respond forbiddenRes
      | some user => AuthOutcome.next user := by
  simp [authenticateJWT, h]

/-- C4: a request whose `Authorization` header is absent or empty is answered
401 with body `{message: "Unauthorized"}` by the middleware, which does not call
`next()`: on a guarded route the handler does not run, whatever it is, and the
world (store and effect log) is left as it was, so no store access happens. -/
theorem C4_missing_header_unauthorized (env : Env) (authorization : Option Token)
    (handler : Doc → World → Res × World) (w : World)
    (h : authorization = none ∨ authorization = some (Token.raw "")) :
    authenticateJWT env authorization =
      AuthOutcome.respond { status := 401, body := [("message", JVal.str "Unauthorized")], token := none } ∧
    (∀ user, authenticateJWT env authorization ≠ AuthOutcome.next user) ∧
    guarded env authorization handler w = (unauthorizedRes, w) ∧
    (alertsRoute env authorization w).1.status = 401 ∧
    (alertsRoute env authorization w).2 = w ∧
    hasStoreAccess (newEffects w (alertsRoute env authorization w).2) = false := by
  have hm : headerMissing authorization = true := by
    rcases h with h | h <;> rw [h] <;> rfl
  have ha := authenticateJWT_of_missing env authorization hm
  have hg : ∀ f : Doc → World → Res × World, guarded env authorization f w = (unauthorizedRes, w) := by
    intro f
    simp [guarded, ha]
  refine ⟨ha, ?_, hg handler, ?_, ?_, ?_⟩
  · intro user hn
    rw [ha] at hn
    cases hn
  · simp [alertsRoute, hg, unauthorizedRes]
  · simp [alertsRoute, hg]
  · simp [alertsRoute, hg, newEffects, hasStoreAccess]

/-- C4 on `GET /alerts` without header and with an empty header: 401 and an
untouched world, although the handler itself would access the store. -/
theorem C4_missing_header_witness :
    (alertsRoute demoEnv none demoWorld).1.status = 401 ∧
    (alertsRoute demoEnv (some (Token.raw "")) demoWorld).1.status = 401 ∧
    hasStoreAccess (newEffects demoWorld (alertsRoute demoEnv none demoWorld).2) = false ∧
    hasStoreAccess (newEffects demoWorld (getAlerts [] demoWorld).2) = true :=
  ⟨(C4_missing_header_unauthorized demoEnv none getAlerts demoWorld (Or.inl rfl)).2.2.2.1,
    (C4_missing_header_unauthorized demoEnv (some (Token.raw "")) getAlerts demoWorld
      (Or.inr rfl)).2.2.2.1,
    (C4_missing_header_unauthorized demoEnv none getAlerts demoWorld (Or.inl rfl)).2.2.2.2.2,
    by decide⟩

/-! ## C5 -/

/-- C5: a request that carries a token whose verification against the server
secret fails is answered 403 by the middleware, a status other than the 401 of a
missing header, and `next()` is not called, so a guarded handler does not run;
a token signed with another key and a token past its expiry both fail
verification; and the middleware calls `next()` with `req.user = user` exactly when
a non-empty header is present and its verification yields `user`. -/
theorem C5_invalid_token_forbidden (env : Env) :
    (∀ (token : Token) (handler : Doc → World → Res × World) (w : World),
      headerMissing (some token) = false →
      jwtVerify token env.SECRET_JWT env.now = none →
        authenticateJWT env (some token) = AuthOutcome.respond forbiddenRes ∧
        (authenticateJWT env (some token)).status = some 403 ∧
        (authenticateJWT env none).status = some 401 ∧
        (∀ user, authenticateJWT env (some token) ≠ AuthOutcome.next user) ∧
        guarded env (some token) handler w = (forbiddenRes, w)) ∧
    (∀ (payload : Doc) (key : String) (iat exp : Nat), key ≠ env.SECRET_JWT →
      jwtVerify (Token.signed payload key iat exp) env.SECRET_JWT env.now = none) ∧
    (∀ (payload : Doc) (key : String) (iat exp : Nat), exp ≤ env.now / 1000 →
      jwtVerify (Token.signed payload key iat exp) env.SECRET_JWT env.now = none) ∧
    (∀ (authorization : Option Token) (user : Doc),
      authenticateJWT env authorization = AuthOutcome.next user ↔
        ∃ token, authorization = some token ∧ headerMissing (some token) = false ∧
          jwtVerify token env.SECRET_JWT env.now = some user) := by
  refine ⟨?_, ?_, ?_, ?_⟩
  · intro token handler w hp hv
    have ha : authenticateJWT env (some token) = AuthOutcome.respond forbiddenRes := by
      rw [authenticateJWT_of_present env token hp, hv]
    refine ⟨ha, ?_, ?_, ?_, ?_⟩
    · rw [ha]; rfl
    · rfl
    · intro user hn
      rw [ha] at hn
      cases hn
    · simp [guarded, ha]
  · intro payload key iat exp hk
    simp [jwtVerify, hk]
  · intro payload key iat exp he
    simp [jwtVerify]
    intro _
    exact he
  · intro authorization user
    constructor
    · intro hn
      cases authorization with
      | none =>
          rw [authenticateJWT_of_missing env none rfl] at hn
          cases hn
      | some token =>
          cases hm : headerMissing (some token) with
          | true =>
              rw [authenticateJWT_of_missing env _ hm] at hn
              cases hn
          | false =>
              rw [authenticateJWT_of_present env token hm] at hn
              cases hv : jwtVerify token env.SECRET_JWT env.now with
              | none =>
                  rw [hv] at hn
                  cases hn
              | some u =>
                  rw [hv] at hn
                  injection hn with hu
                  exact ⟨token, rfl, hm, by rw [hv, hu]⟩
    · rintro ⟨token, rfl, hm, hv⟩
      rw [authenticateJWT_of_present env token hm, hv]

/-- C5 on `GET /alerts`: a token signed with another key and a token that has
expired are answered 403, the missing header 401, and the same token before
its expiry with the right key passes the middleware. -/
theorem C5_invalid_token_witness :
    (alertsRoute demoEnv (some (jwtSign [("userId", JVal.str "u1")] "other" demoEnv.now))
      demoWorld).1.status = 403 ∧
    (alertsRoute (laterEnv (sevenDays * 1000))
      (some (jwtSign [("userId", JVal.str "u1")] demoEnv.SECRET_JWT demoEnv.now))
      demoWorld).1.status = 403 ∧
    (alertsRoute demoEnv none demoWorld).1.status = 401 ∧
    (alertsRoute demoEnv
      (some (jwtSign [("userId", JVal.str "u1")] demoEnv.SECRET_JWT demoEnv.now))
      demoWorld).1.status = 200 ∧
    authenticateJWT demoEnv (some (jwtSign [("userId", JVal.str "u1")] "other" demoEnv.now)) =
      AuthOutcome.respond forbiddenRes :=
  ⟨by decide, by decide, by decide, by decide,
    ((C5_invalid_token_forbidden demoEnv).1
      (jwtSign [("userId", JVal.str "u1")] "other" demoEnv.now) getAlerts demoWorld rfl
      ((C5_invalid_token_forbidden demoEnv).2.1 _ "other" _ _ (by decide))).1⟩

/-! ## Lemmas: the login handler -/

theorem login_of_unknown (env : Env) (body : LoginBody) (w : World)
    (h : findAll w.store.users "email" (JVal.str body.email) = []) :
    login env body w = (loginError, w.lookedUp) := by
  simp [login, World.lookedUp, World.emit, h]

theorem login_of_found (env : Env) (body : LoginBody) (w : World) (u : Doc) (rest : List Doc)
    (h : findAll w.store.users "email" (JVal.str body.email) = u :: rest) :
    login env body w =
      match comparePassword env body.password (getField u "password") with
      | none => (loginError, w.lookedUp)
      | some true =>
          ({ status := 200, body := [("user", JVal.obj u)]
             token := some (jwtSign [("user", JVal.obj u), ("userId", getField u "user_id")]
               env.SECRET_JWT env.now) },
            w.lookedUp.emit Effect.sign)
      | some false =>
          ({ status := 400
             body := [("message", JVal.str "User not authorized. Incorrect password")]
             token := none },
            w.lookedUp) := by
  simp [login, World.lookedUp, World.emit, h, documentKeys]

/-! ## C6 -/

/-- C6: a login whose email selects a stored user and whose password the
bcrypt comparison with that user's stored hash rejects is answered 400; the
response has no token, no token is signed, and the store is untouched. -/
theorem C6_login_wrong_password (env : Env) (body : LoginBody) (w : World) (u : Doc)
    (rest : List Doc)
    (hfound : findAll w.store.users "email" (JVal.str body.email) = u :: rest)
    (hcompare : comparePassword env body.password (getField u "password") = some false) :
    (login env body w).1.status = 400 ∧
    (login env body w).1.token = none ∧
    getField (login env body w).1.body "token" = JVal.undef ∧
    Effect.sign ∉ newEffects w (login env body w).2 ∧
    (login env body w).2.store = w.store := by
  rw [login_of_found env body w u rest hfound, hcompare]
  refine ⟨rfl, rfl, rfl, ?_, rfl⟩
  simp [newEffects, World.lookedUp, World.emit]

/-- C6 on the stored user `a@x.com` with the password `q`. -/
theorem C6_login_wrong_password_witness :
    findAll demoWorld.store.users "email" (JVal.str wrongLogin.email) = [demoUser] ∧
    comparePassword demoEnv wrongLogin.password (getField demoUser "password") = some false ∧
    (login demoEnv wrongLogin demoWorld).1.status = 400 ∧
    (login demoEnv wrongLogin demoWorld).1.token = none :=
  ⟨rfl, by decide,
    (C6_login_wrong_password demoEnv wrongLogin demoWorld demoUser [] rfl (by decide)).1,
    (C6_login_wrong_password demoEnv wrongLogin demoWorld demoUser [] rfl (by decide)).2.1⟩

/-! ## C7 -/

/-- C8: a login whose email selects no stored user is answered 500, not 200;
the response has no token, no token is signed, and the store is untouched. -/
theorem C8_login_unknown_email (env : Env) (body : LoginBody) (w : World)
    (hnone : findAll w.store.users "email" (JVal.str body.email) = []) :
    (login env body w).1.status = 500 ∧
    (login env body w).1.status ≠ 200 ∧
    (login env body w).1.token = none ∧
    getField (login env body w).1.body "token" = JVal.undef ∧
    Effect.sign ∉ newEffects w (login env body w).2 ∧
    (login env body w).2.store = w.store := by
  rw [login_of_unknown env body w hnone]
  refine ⟨rfl, ?_, rfl, rfl, ?_, rfl⟩
  · show (500 : Nat) ≠ 200
    decide
  · simp [newEffects, World.lookedUp, World.emit]

/-- C8 on a store that holds `a@x.com` only, for the email `nobody@x.com`. -/
theorem C8_login_unknown_email_witness :
    findAll demoWorld.store.users "email" (JVal.str unknownLogin.email) = [] ∧
    (login demoEnv unknownLogin demoWorld).1.status = 500 ∧
    (login demoEnv unknownLogin demoWorld).1.token = none :=
  ⟨rfl, (C8_login_unknown_email demoEnv unknownLogin demoWorld rfl).1,
    (C8_login_unknown_email demoEnv unknownLogin demoWorld rfl).2.2.1⟩

/-! ## C9 -/

/-- C11 (the code departs from the claim): the task the signup handler
constructs, as the Task schema of `src/models/task.js` shapes it, has the title
"Getting Started", the new user's email as its only assignee, the sprint id
preassigned to the user, `hard_limit` false and `requires_authorization`
false; but it has no `kanban` member, because the schema has no such path, and
no `description`, which the schema requires: it fails validation, so
`firstTask.save()` throws whatever the store does, and a signup with a fresh
email leaves the `tasks` collection as it was. -/
theorem C11_first_task_fails_schema (m : Models) (env : Env) (body : SignupBody) :
    getField (signupDocs m.withTaskSchema env body).firstTask.fields "title" =
      JVal.str "Getting Started" ∧
    getField (signupDocs m.withTaskSchema env body).firstTask.fields "assignees" =
      JVal.arr [getField (signupDocs m.withTaskSchema env body).newUser.fields "email"] ∧
    getField (signupDocs m.withTaskSchema env body).firstTask.fields "sprint_id" =
      JVal.str (env.uuidv4 4) ∧
    getField (signupDocs m.withTaskSchema env body).firstTask.fields "hard_limit" =
      JVal.bool false ∧
    getField (signupDocs m.withTaskSchema env body).firstTask.fields "requires_authorization" =
      JVal.bool false ∧
    getField (signupDocs m.withTaskSchema env body).firstTask.fields "kanban" = JVal.undef ∧
    getField (signupDocs m.withTaskSchema env body).firstTask.fields "description" =
      JVal.undef ∧
    { name := "description", type := SType.string, required := true } ∈ taskSchema ∧
    validate (signupDocs m.withTaskSchema env body).firstTask = false ∧
    saveOk env Write.saveTask (signupDocs m.withTaskSchema env body).firstTask = false ∧
    (∀ w : World,
      save env Write.saveTask Coll.tasks (signupDocs m.withTaskSchema env body).firstTask w =
        (none, w.rejected Coll.tasks)) ∧
    (∀ w : World, findOne w.store.users "email" (JVal.str body.email) = none →
      (signup m.withTaskSchema env body w).2.store.tasks = w.store.tasks ∧
      (signup m.withTaskSchema env body w).1.status = 500) := by
  have hv := firstTask_invalid m env body
  have hs : saveOk env Write.saveTask (signupDocs m.withTaskSchema env body).firstTask = false := by
    simp [saveOk, hv]
  refine ⟨rfl, rfl, rfl, rfl, rfl, rfl, rfl, by decide, hv, hs, ?_, ?_⟩
  · intro w
    exact save_of_not_ok Coll.tasks w hs
  · intro w hfresh
    rw [signup_of_fresh _ env body w hfresh]
    rcases (persist_run env body (signupDocs m.withTaskSchema env body) (env.uuidv4 0)
      (env.uuidv4 1) _).of_task_invalid hv with h | ⟨_, h⟩
    · rw [h]
      exact ⟨rfl, rfl⟩
    · rw [h]
      exact ⟨rfl, rfl⟩

/-- C11 at the request of the spec's example on an empty store: the task is
assigned to `a@x.com` and attached to the sprint id of the user, has neither
`kanban` nor `description`, and is not stored. -/
theorem C11_first_task_example_witness :
    getField (signupDocs appModels.withTaskSchema demoEnv demoSignup).firstTask.fields
      "assignees" = JVal.arr [JVal.str "a@x.com"] ∧
    getField (signupDocs appModels.withTaskSchema demoEnv demoSignup).newUser.fields
      "sprints" = JVal.arr [JVal.str (demoEnv.uuidv4 4)] ∧
    getField (signupDocs appModels.withTaskSchema demoEnv demoSignup).firstTask.fields
      "sprint_id" = JVal.str (demoEnv.uuidv4 4) ∧
    getField (signupDocs appModels.withTaskSchema demoEnv demoSignup).firstTask.fields
      "kanban" = JVal.undef ∧
    validate (signupDocs appModels.withTaskSchema demoEnv demoSignup).firstTask = false ∧
    findOne World.initial.store.users "email" (JVal.str demoSignup.email) = none ∧
    (signup appModels.withTaskSchema demoEnv demoSignup World.initial).2.store.tasks =
        World.initial.store.tasks ∧
    (signup appModels.withTaskSchema demoEnv demoSignup World.initial).1.status = 500 ∧
    (signup appModels.withTaskSchema demoEnv demoSignup World.initial).2.store.tasks.length = 0 :=
  ⟨rfl, rfl,
    (C11_first_task_fails_schema appModels demoEnv demoSignup).2.2.1,
    (C11_first_task_fails_schema appModels demoEnv demoSignup).2.2.2.2.2.1,
    (C11_first_task_fails_schema appModels demoEnv demoSignup).2.2.2.2.2.2.2.2.1,
    rfl,
    ((C11_first_task_fails_schema appModels demoEnv demoSignup).2.2.2.2.2.2.2.2.2.2.2
      World.initial rfl).1,
    ((C11_first_task_fails_schema appModels demoEnv demoSignup).2.2.2.2.2.2.2.2.2.2.2
      World.initial rfl).2,
    by decide⟩

end JM
